import Mathlib

/-!
Shallow embedding of the openmap-studio project-file model.

This file embeds, in Lean, the parts of the repository that manage the
`.openmap` project file: the `MapStateManager` class and the free functions
`parseOpenMapFile` / `fileStateToConfig` (src/map-state.ts), the
`vectorControl.on('load') `handler of `launchMap` (src/main entry), and the
two variants of `loadConfig` / `loadOrDefaultConfig` (src/config.ts).

Modelling conventions:
* JavaScript runtime values that flow through `JSON.parse` / property access
  are modelled by the inductive `Json` below, with an explicit `undefined`
  constructor for JavaScript `undefined` (the value of a missing property).
* `JSON.stringify` followed by `JSON.parse` is a faithful round trip on the
  JSON values this program produces, so the text stage is modelled as the
  identity on the `Json` AST: `toJSON` produces the AST that the emitted
  text denotes, and `parseOpenMapFile` consumes that AST (the value that
  `JSON.parse` returns on the produced text).
* JavaScript numbers are modelled as `Int`; the embedded code only copies
  numeric values around (no arithmetic is performed on them), so the claims
  proved here do not depend on floating-point behaviour.
* Methods that mutate the manager (`updateDatasetStyles`, `serialize`,
  `toJSON`, `reset`) are modelled by explicit state passing: they return the
  updated manager next to their result.
* Every embedded function is total; "never throws" claims are reflected by
  the functions being defined on all inputs of the stated shape.
-/

namespace OpenMapStudio

/-- JSON-like JavaScript runtime values. `undefined` models JavaScript
`undefined`, the result of reading a missing property; `null` models the
JSON literal `null`. Objects keep their fields as an ordered association
list, matching JavaScript property insertion order. -/
inductive Json where
  | undefined : Json
  | null : Json
  | bool (b : Bool) : Json
  | num (n : Int) : Json
  | str (s : String) : Json
  | arr (elems : List Json) : Json
  | obj (fields : List (String × Json)) : Json

/-- JavaScript truthiness: `undefined`, `null`, `false`, `0` and the empty
string are falsy; every object and array is truthy. -/
def Json.truthy : Json → Bool
  | .undefined => false
  | .null => false
  | .bool b => b
  | .num n => n != 0
  | .str s => s != ""
  | .arr _ => true
  | .obj _ => true

/-- Looks up a key in an object's field list; a missing key reads as
`undefined`, as in JavaScript. The first occurrence wins. -/
def getFieldList : List (String × Json) → String → Json
  | [], _ => .undefined
  | (k, v) :: rest, key => if k = key then v else getFieldList rest key

/-- JavaScript property access `value[key]` for object values; reading a
property off a non-object yields `undefined`. -/
def Json.getField : Json → String → Json
  | .obj fs, key => getFieldList fs key
  | _, _ => .undefined

/-- JavaScript property assignment on a field list: replaces the first
binding of the key in place, or appends the key at the end if absent. -/
def setFieldList : List (String × Json) → String → Json → List (String × Json)
  | [], key, v => [(key, v)]
  | (k, w) :: rest, key, v =>
      if k = key then (k, v) :: rest else (k, w) :: setFieldList rest key v

/-- JavaScript property assignment `value[key] = v` for object values;
non-objects are returned unchanged (the embedded code only assigns on
objects). -/
def Json.setField : Json → String → Json → Json
  | .obj fs, key, v => .obj (setFieldList fs key v)
  | j, _, _ => j

/-- JavaScript `typeof v === 'object'`: true for objects, arrays and
`null`. -/
def jsObjectLike : Json → Bool
  | .obj _ => true
  | .arr _ => true
  | .null => true
  | _ => false

/-- JavaScript nullish test, the guard of the `??` operator: true exactly
for `undefined` and `null`. -/
def jsNullish : Json → Bool
  | .undefined => true
  | .null => true
  | _ => false

/-- JavaScript nullish coalescing `v ?? d`. -/
def nullishD (v d : Json) : Json :=
  if jsNullish v then d else v

/-- Current file format version (`OPENMAP_FILE_VERSION` in
src/types/openmap-file.ts). -/
def OPENMAP_FILE_VERSION : String := "1.0"

/-- Embeds `parseOpenMapFile` from src/map-state.ts. The argument is the
value produced by `JSON.parse` on the file text. The source checks the
`version`, `config` and `viewport` properties for truthiness, throwing a
distinct message for each, then assigns `state.datasets = []` when the
`datasets` property is falsy. Thrown errors are modelled by `Except.error`
carrying the message. -/
def parseOpenMapFile (state : Json) : Except String Json :=
  if ¬ (state.getField "version").truthy then
    .error "Invalid OpenMap file: missing version"
  else if ¬ (state.getField "config").truthy then
    .error "Invalid OpenMap file: missing config"
  else if ¬ (state.getField "viewport").truthy then
    .error "Invalid OpenMap file: missing viewport"
  else if ¬ (state.getField "datasets").truthy then
    .ok (state.setField "datasets" (.arr []))
  else
    .ok state

/-- The field list an object spreads to: `{...v}` contributes `v`'s own
fields when `v` is an object and nothing otherwise. -/
def spreadFields : Json → List (String × Json)
  | .obj fs => fs
  | _ => []

/-- Embeds `fileStateToConfig` from src/map-state.ts:
`{...fileState.config, initialCenter: fileState.viewport.center,
initialZoom: fileState.viewport.zoom}`. -/
def fileStateToConfig (fileState : Json) : Json :=
  .obj (setFieldList
    (setFieldList (spreadFields (fileState.getField "config"))
      "initialCenter" ((fileState.getField "viewport").getField "center"))
    "initialZoom" ((fileState.getField "viewport").getField "zoom"))

/-- Configuration of one optional map control (`ControlConfig` in
src/config.ts, first variant). Positions are plain strings. -/
structure ControlConfig where
  enabled : Bool
  position : String
deriving Repr, DecidableEq

/-- The map configuration (`MapConfig` in src/config.ts, first variant).
The `controls` record is modelled as an ordered association list from
control name to its configuration, matching property insertion order. -/
structure MapConfig where
  basemapStyleUrl : String
  basemapId : String
  controls : List (String × ControlConfig)
  initialCenter : Int × Int
  initialZoom : Int
deriving Repr, DecidableEq

/-- Padding values of the viewport (`PaddingState` in
src/types/openmap-file.ts). -/
structure PaddingState where
  top : Int
  bottom : Int
  left : Int
  right : Int
deriving Repr, DecidableEq

/-- The captured viewport (`ViewportState` in src/types/openmap-file.ts);
`padding` is optional. -/
structure ViewportState where
  center : Int × Int
  zoom : Int
  bearing : Int
  pitch : Int
  padding : Option PaddingState
deriving Repr, DecidableEq

/-- Terrain descriptor as stored by `getRenderState` (`source` plus an
optional `exaggeration`, the latter omitted from the emitted JSON when the
live map reported none). -/
structure TerrainSpec where
  source : String
  exaggeration : Option Int
deriving Repr, DecidableEq

/-- The captured render state (`MapRenderState` in
src/types/openmap-file.ts). Each field uses `Option (Option _)`: the outer
`Option` is key presence in the produced object (`none` when the manager
has no map and returns `{}`), the inner `Option` distinguishes `null` from
an actual value. `projection` is a plain string when present. -/
structure MapRenderState where
  projection : Option String := none
  terrain : Option (Option TerrainSpec) := none
  sky : Option (Option Json) := none
  fog : Option (Option Json) := none

/-- One captured layer style (`SavedLayerStyle` in
src/types/openmap-file.ts); `paint` and `layout` are opaque JSON maps and
may be absent. -/
structure SavedLayerStyle where
  layerId : String
  type : String
  paint : Option Json
  layout : Option Json

/-- One stored vector dataset (`VectorDatasetState` in
src/types/openmap-file.ts). The `geojson` payload is opaque JSON. -/
structure VectorDatasetState where
  id : String
  name : String
  geojson : Json
  visible : Bool
  layerIds : Option (List String)
  layerStyles : Option (List SavedLayerStyle)

/-- The persisted document (`OpenMapFileState` in
src/types/openmap-file.ts). -/
structure OpenMapFileState where
  version : String
  savedAt : String
  config : MapConfig
  viewport : ViewportState
  renderState : Option MapRenderState
  datasets : List VectorDatasetState

/-- Padding as reported by the live map's `getPadding()`, each edge possibly
`undefined`. -/
structure MapPadding where
  top : Option Int
  bottom : Option Int
  left : Option Int
  right : Option Int

/-- Projection specification as returned by the live map's
`getProjection()`; it may carry a `type` or a `name` property. -/
structure ProjectionSpec where
  type : Option String
  name : Option String

/-- One layer of the live map's style, as read by `captureLayerStyles`. -/
structure LiveLayer where
  id : String
  type : String
  paint : Option Json
  layout : Option Json

/-- The live map's style object: its layer list and the optional `sky` and
`fog` properties read by `getRenderState`. -/
structure LiveStyle where
  layers : List LiveLayer
  sky : Option Json
  fog : Option Json

/-- A source registered on the live map, as seen through
`getSource(id)` / `serialize().data` in the dataset-load handler.
`serializedData` is the `data` property of the serialized source. -/
structure MapSource where
  type : String
  serializedData : Json

/-- The read-only surface of the attached MapLibre map that the embedded
code consumes. `getTerrain` and `getProjection` are optional-chained in the
source (`?.()`), so the accessors themselves may be absent: the outer
`Option` is accessor presence, the inner `Option` the nullable call
result. -/
structure LiveMap where
  centerLng : Int
  centerLat : Int
  zoom : Int
  bearing : Int
  pitch : Int
  padding : MapPadding
  getTerrain : Option (Option TerrainSpec)
  getProjection : Option (Option ProjectionSpec)
  style : LiveStyle
  sources : List (String × MapSource)

/-- The live map's `getSource(id)` lookup. -/
def LiveMap.getSource (m : LiveMap) (id : String) : Option MapSource :=
  (m.sources.find? (fun p => p.1 == id)).map (fun p => p.2)

/-- The mutable state of `MapStateManager` (src/map-state.ts): current file
path, dirty flag, current config, attached map and the stored datasets. -/
structure MapStateManager where
  currentFilePath : Option String := none
  isDirty : Bool := false
  config : Option MapConfig := none
  map : Option LiveMap := none
  datasets : List VectorDatasetState := []

/-- Embeds `MapStateManager.getViewportState`: reads the live map's camera,
or returns the fixed fallback `{center:[0,20], zoom:2, bearing:0, pitch:0}`
(no padding) when no map is attached. Attached-map padding edges default to
`0` via `??`. -/
def MapStateManager.getViewportState (m : MapStateManager) : ViewportState :=
  match m.map with
  | none =>
      { center := (0, 20), zoom := 2, bearing := 0, pitch := 0, padding := none }
  | some lm =>
      { center := (lm.centerLng, lm.centerLat)
        zoom := lm.zoom
        bearing := lm.bearing
        pitch := lm.pitch
        padding := some
          { top := lm.padding.top.getD 0
            bottom := lm.padding.bottom.getD 0
            left := lm.padding.left.getD 0
            right := lm.padding.right.getD 0 } }

/-- Embeds `MapStateManager.getRenderState`: returns `{}` when no map is
attached; otherwise `terrain := getTerrain?.() ?? null`,
`projection := spec?.type ?? spec?.name ?? 'mercator'`, and
`sky` / `fog := style?.sky ?? null` / `style?.fog ?? null`. -/
def MapStateManager.getRenderState (m : MapStateManager) : MapRenderState :=
  match m.map with
  | none => {}
  | some lm =>
      let terrain : Option TerrainSpec := lm.getTerrain.join
      let projectionSpec : Option ProjectionSpec := lm.getProjection.join
      let projection : String :=
        match projectionSpec with
        | none => "mercator"
        | some spec =>
            match spec.type with
            | some t => t
            | none =>
                match spec.name with
                | some n => n
                | none => "mercator"
      { projection := some projection
        terrain := some (terrain.map (fun t =>
          { source := t.source, exaggeration := t.exaggeration }))
        sky := some lm.style.sky
        fog := some lm.style.fog }

/-- Embeds `MapStateManager.captureLayerStyles`: with no map attached it
returns `[]`; otherwise, for each given layer id in order, it records
`{layerId, type, paint, layout}` for the first style layer with that id and
silently skips ids that match no layer. -/
def MapStateManager.captureLayerStyles (m : MapStateManager)
    (layerIds : List String) : List SavedLayerStyle :=
  match m.map with
  | none => []
  | some lm =>
      layerIds.filterMap (fun layerId =>
        (lm.style.layers.find? (fun l => l.id == layerId)).map (fun layer =>
          { layerId := layerId
            type := layer.type
            paint := layer.paint
            layout := layer.layout }))

/-- Embeds `MapStateManager.updateDatasetStyles`: a no-op without a map;
otherwise every dataset with a non-empty `layerIds` list gets its
`layerStyles` replaced by a fresh `captureLayerStyles` capture, all other
fields and datasets unchanged. -/
def MapStateManager.updateDatasetStyles (m : MapStateManager) : MapStateManager :=
  match m.map with
  | none => m
  | some _ =>
      { m with datasets := m.datasets.map (fun dataset =>
          match dataset.layerIds with
          | some ids =>
              if ids.length > 0 then
                { dataset with layerStyles := some (m.captureLayerStyles ids) }
              else dataset
          | none => dataset) }

/-- Embeds `MapStateManager.serialize`: returns `null` when no config is
set; otherwise refreshes dataset styles and assembles the document with the
fixed version constant and a fresh timestamp (passed in as `now`). The
second component is the manager after the mutation performed by
`updateDatasetStyles`. -/
def MapStateManager.serialize (m : MapStateManager) (now : String) :
    Option OpenMapFileState × MapStateManager :=
  match m.config with
  | none => (none, m)
  | some cfg =>
      let m' := m.updateDatasetStyles
      (some
        { version := OPENMAP_FILE_VERSION
          savedAt := now
          config := cfg
          viewport := m'.getViewportState
          renderState := some m'.getRenderState
          datasets := m'.datasets }, m')

/-- Embeds `MapStateManager.reset`: every field back to its initial
value. -/
def MapStateManager.reset (_ : MapStateManager) : MapStateManager := {}

/-- JSON encoding of a padding record, in the field order written by
`getViewportState`. -/
def encodePadding (p : PaddingState) : Json :=
  .obj [("top", .num p.top), ("bottom", .num p.bottom),
        ("left", .num p.left), ("right", .num p.right)]

/-- JSON encoding of a coordinate pair `[lng, lat]`. -/
def encodeCenter (c : Int × Int) : Json :=
  .arr [.num c.1, .num c.2]

/-- JSON encoding of a viewport; the `padding` key is present exactly when
the viewport carries padding (`JSON.stringify` drops `undefined`-valued
fields). -/
def encodeViewportState (v : ViewportState) : Json :=
  .obj ([("center", encodeCenter v.center), ("zoom", .num v.zoom),
         ("bearing", .num v.bearing), ("pitch", .num v.pitch)] ++
    (match v.padding with
     | some p => [("padding", encodePadding p)]
     | none => []))

/-- JSON encoding of a terrain descriptor; `exaggeration` is emitted only
when present. -/
def encodeTerrain (t : TerrainSpec) : Json :=
  .obj ([("source", .str t.source)] ++
    (match t.exaggeration with
     | some e => [("exaggeration", .num e)]
     | none => []))

/-- Encodes a nullable value: `none` is JSON `null`. -/
def encodeNullable (f : α → Json) : Option α → Json
  | none => .null
  | some a => f a

/-- JSON encoding of a render state: each key is emitted exactly when its
outer `Option` is `some`, an inner `none` becoming `null`. -/
def encodeRenderState (r : MapRenderState) : Json :=
  .obj ((match r.projection with
         | some p => [("projection", .str p)]
         | none => []) ++
    (match r.terrain with
     | some t => [("terrain", encodeNullable encodeTerrain t)]
     | none => []) ++
    (match r.sky with
     | some s => [("sky", encodeNullable id s)]
     | none => []) ++
    (match r.fog with
     | some f => [("fog", encodeNullable id f)]
     | none => []))

/-- JSON encoding of one saved layer style; `paint` / `layout` keys are
emitted only when present. -/
def encodeSavedLayerStyle (s : SavedLayerStyle) : Json :=
  .obj ([("layerId", .str s.layerId), ("type", .str s.type)] ++
    (match s.paint with
     | some p => [("paint", p)]
     | none => []) ++
    (match s.layout with
     | some l => [("layout", l)]
     | none => []))

/-- JSON encoding of one stored dataset. -/
def encodeDataset (d : VectorDatasetState) : Json :=
  .obj ([("id", .str d.id), ("name", .str d.name), ("geojson", d.geojson),
         ("visible", .bool d.visible)] ++
    (match d.layerIds with
     | some ids => [("layerIds", .arr (ids.map Json.str))]
     | none => []) ++
    (match d.layerStyles with
     | some ss => [("layerStyles", .arr (ss.map encodeSavedLayerStyle))]
     | none => []))

/-- JSON encoding of one control configuration. -/
def encodeControlConfig (c : ControlConfig) : Json :=
  .obj [("enabled", .bool c.enabled), ("position", .str c.position)]

/-- JSON encoding of the controls record. -/
def encodeControls (cs : List (String × ControlConfig)) : Json :=
  .obj (cs.map (fun p => (p.1, encodeControlConfig p.2)))

/-- JSON encoding of a map configuration. -/
def encodeMapConfig (c : MapConfig) : Json :=
  .obj [("basemapStyleUrl", .str c.basemapStyleUrl),
        ("basemapId", .str c.basemapId),
        ("controls", encodeControls c.controls),
        ("initialCenter", encodeCenter c.initialCenter),
        ("initialZoom", .num c.initialZoom)]

/-- JSON encoding of the persisted document, in the field order written by
`serialize`. -/
def encodeOpenMapFileState (s : OpenMapFileState) : Json :=
  .obj ([("version", .str s.version), ("savedAt", .str s.savedAt),
         ("config", encodeMapConfig s.config),
         ("viewport", encodeViewportState s.viewport)] ++
    (match s.renderState with
     | some r => [("renderState", encodeRenderState r)]
     | none => []) ++
    [("datasets", .arr (s.datasets.map encodeDataset))])

/-- Embeds `MapStateManager.toJSON`: `serialize()` followed by
`JSON.stringify(state, null, 2)`. The emitted text is modelled by the JSON
value it denotes. The second component is the manager after the mutation
performed by `serialize`. -/
def MapStateManager.toJSON (m : MapStateManager) (now : String) :
    Option Json × MapStateManager :=
  let (st, m') := m.serialize now
  match st with
  | none => (none, m')
  | some s => (some (encodeOpenMapFileState s), m')

/-- The payload of a `vectorControl` load event (`event.dataset`). -/
structure EventDataset where
  id : String
  filename : String
  sourceId : String
  layerIds : List String

/-- A `vectorControl` load event; `dataset` may be absent. -/
structure LoadEvent where
  dataset : Option EventDataset

/-- Embeds the `vectorControl.on('load')` handler installed by `launchMap`
(src entry module), restricted to the state it manages: with an event
dataset and an attached map, a record whose `name` equals the event's
`filename` gets only its `layerIds` replaced (the dirty flag untouched;
the handler's remaining work rewires the live layer control and styles,
outside the state manager); otherwise, when the event's source is a geojson
source whose serialized `data` is a truthy object, a fresh record is
appended with `visible := true` and the dirty flag is set. -/
def handleDatasetLoad (m : MapStateManager) (event : LoadEvent) : MapStateManager :=
  match event.dataset, m.map with
  | some ds, some lm =>
      match m.datasets.findIdx? (fun d => d.name == ds.filename) with
      | some existingIndex =>
          match m.datasets[existingIndex]? with
          | some existingDataset =>
              let updated := { existingDataset with layerIds := some ds.layerIds }
              { m with datasets := m.datasets.set existingIndex updated }
          | none => m
      | none =>
          match lm.getSource ds.sourceId with
          | some source =>
              if source.type == "geojson" then
                let geojsonData := source.serializedData
                if geojsonData.truthy && jsObjectLike geojsonData then
                  { m with
                    datasets := m.datasets ++
                      [{ id := ds.id
                         name := ds.filename
                         geojson := geojsonData
                         visible := true
                         layerIds := some ds.layerIds
                         layerStyles := none }]
                    isDirty := true }
                else m
              else m
          | none => m
  | _, _ => m

namespace ConfigV1

/-- Control metadata (`ControlMeta` in src/config.ts, first variant). -/
structure ControlMeta where
  type : String
  label : String
  description : String
  defaultEnabled : Bool
  defaultPosition : String

/-- The static default table `CONTROL_OPTIONS` of src/config.ts (first
variant). -/
def CONTROL_OPTIONS : List ControlMeta :=
  [{ type := "navigation", label := "Navigation",
     description := "Zoom and rotation controls",
     defaultEnabled := true, defaultPosition := "top-right" },
   { type := "fullscreen", label := "Fullscreen",
     description := "Toggle fullscreen mode",
     defaultEnabled := true, defaultPosition := "top-right" },
   { type := "globe", label := "Globe",
     description := "3D globe projection toggle",
     defaultEnabled := true, defaultPosition := "top-right" },
   { type := "layerControl", label := "Layer Control",
     description := "Manage map layers visibility",
     defaultEnabled := true, defaultPosition := "top-right" },
   { type := "vectorDataset", label := "Vector Dataset",
     description := "Upload GeoJSON files via drag-drop",
     defaultEnabled := true, defaultPosition := "top-left" },
   { type := "search", label := "Search",
     description := "Search for places using Nominatim",
     defaultEnabled := false, defaultPosition := "top-left" },
   { type := "terrain", label := "3D Terrain",
     description := "Enable 3D terrain visualization",
     defaultEnabled := false, defaultPosition := "top-right" },
   { type := "inspect", label := "Feature Inspector",
     description := "Click features to view properties",
     defaultEnabled := false, defaultPosition := "top-right" },
   { type := "basemapSwitcher", label := "Basemap Switcher",
     description := "Switch basemaps from within the map",
     defaultEnabled := false, defaultPosition := "bottom-left" }]

/-- A basemap entry (`BasemapOption` in src/config.ts, first variant). -/
structure BasemapOption where
  id : String
  name : String
  styleUrl : String
  thumbnail : Option String := none

/-- The static table `BASEMAP_OPTIONS` of src/config.ts (first variant). -/
def BASEMAP_OPTIONS : List BasemapOption :=
  [{ id := "liberty", name := "OpenFreeMap Liberty",
     styleUrl := "https://tiles.openfreemap.org/styles/liberty" },
   { id := "bright", name := "OpenFreeMap Bright",
     styleUrl := "https://tiles.openfreemap.org/styles/bright" },
   { id := "positron", name := "OpenFreeMap Positron",
     styleUrl := "https://tiles.openfreemap.org/styles/positron" },
   { id := "dark-matter", name := "Dark Matter",
     styleUrl := "https://tiles.openfreemap.org/styles/dark" },
   { id := "carto-positron", name := "CartoDB Positron",
     styleUrl := "https://basemaps.cartocdn.com/gl/positron-gl-style/style.json" },
   { id := "carto-voyager", name := "CartoDB Voyager",
     styleUrl := "https://basemaps.cartocdn.com/gl/voyager-gl-style/style.json" }]

/-- First entry of `BASEMAP_OPTIONS`, as read by `getDefaultConfig`
(`BASEMAP_OPTIONS[0]`). -/
def firstBasemap : BasemapOption :=
  match BASEMAP_OPTIONS with
  | b :: _ => b
  | [] => { id := "", name := "", styleUrl := "" }

/-- Embeds `getDefaultConfig` (first variant): controls built from the
default table, basemap from the first table entry, viewport `[0,20]` at
zoom 2. -/
def getDefaultConfig : MapConfig :=
  { basemapStyleUrl := firstBasemap.styleUrl
    basemapId := firstBasemap.id
    controls := CONTROL_OPTIONS.map (fun c =>
      (c.type, { enabled := c.defaultEnabled, position := c.defaultPosition }))
    initialCenter := (0, 20)
    initialZoom := 2 }

/-- Embeds `loadConfig` (first variant). `saved` is the value stored under
the fixed storage key (`none` = no entry), `jsonParse` the outcome of
`JSON.parse` on a given text. A falsy (empty) stored string, a parse
failure, and a parsed `null` all yield `null`; otherwise the parsed value
is returned unvalidated. -/
def loadConfig (saved : Option String)
    (jsonParse : String → Except String Json) : Option Json :=
  match saved with
  | none => none
  | some s =>
      if s == "" then none
      else
        match jsonParse s with
        | .error _ => none
        | .ok j =>
            match j with
            | .null => none
            | _ => some j

/-- Embeds `loadOrDefaultConfig` (first variant):
`loadConfig() ?? getDefaultConfig()`, with the default rendered as its JSON
value. -/
def loadOrDefaultConfig (saved : Option String)
    (jsonParse : String → Except String Json) : Json :=
  match loadConfig saved jsonParse with
  | some j => j
  | none => encodeMapConfig getDefaultConfig

end ConfigV1

namespace ConfigV2

/-- The map configuration of the second src/config.ts variant. -/
structure MapConfig where
  basemapStyleUrl : String
  basemapId : String
  initialCenter : Int × Int
  initialZoom : Int
  layerControlEnabled : Bool
  controlGridEnabled : Bool
deriving Repr, DecidableEq

/-- JSON encoding of the second variant's configuration. -/
def encodeMapConfig (c : MapConfig) : Json :=
  .obj [("basemapStyleUrl", .str c.basemapStyleUrl),
        ("basemapId", .str c.basemapId),
        ("initialCenter", encodeCenter c.initialCenter),
        ("initialZoom", .num c.initialZoom),
        ("layerControlEnabled", .bool c.layerControlEnabled),
        ("controlGridEnabled", .bool c.controlGridEnabled)]

/-- Embeds `getDefaultConfig` of the second src/config.ts variant (its
`BASEMAP_OPTIONS[0]` is the same Liberty entry). -/
def getDefaultConfig : MapConfig :=
  { basemapStyleUrl := "https://tiles.openfreemap.org/styles/liberty"
    basemapId := "liberty"
    initialCenter := (0, 20)
    initialZoom := 2
    layerControlEnabled := true
    controlGridEnabled := true }

/-- Embeds `loadConfig` (second variant): like the first variant it returns
`null` for a missing or falsy entry and for a parse failure (a parsed
`null` makes the in-`try` property accesses throw, which the `catch` also
turns into `null`); on success it rebuilds the configuration object,
filling `initialCenter`, `initialZoom`, `layerControlEnabled` and
`controlGridEnabled` through `??` defaults. -/
def loadConfig (saved : Option String)
    (jsonParse : String → Except String Json) : Option Json :=
  match saved with
  | none => none
  | some s =>
      if s == "" then none
      else
        match jsonParse s with
        | .error _ => none
        | .ok parsed =>
            match parsed with
            | .null => none
            | _ => some (.obj
                [("basemapStyleUrl", parsed.getField "basemapStyleUrl"),
                 ("basemapId", parsed.getField "basemapId"),
                 ("initialCenter",
                   nullishD (parsed.getField "initialCenter") (encodeCenter (0, 20))),
                 ("initialZoom",
                   nullishD (parsed.getField "initialZoom") (.num 2)),
                 ("layerControlEnabled",
                   nullishD (parsed.getField "layerControlEnabled") (.bool true)),
                 ("controlGridEnabled",
                   nullishD (parsed.getField "controlGridEnabled") (.bool true))])

/-- Embeds `loadOrDefaultConfig` (second variant). -/
def loadOrDefaultConfig (saved : Option String)
    (jsonParse : String → Except String Json) : Json :=
  match loadConfig saved jsonParse with
  | some j => j
  | none => encodeMapConfig getDefaultConfig

end ConfigV2

/-- A live map whose optional render-state accessors are all missing and
whose style carries no sky, fog or layers. -/
def bareLiveMap : LiveMap :=
  { centerLng := 3
    centerLat := 4
    zoom := 5
    bearing := 0
    pitch := 0
    padding := { top := none, bottom := none, left := none, right := none }
    getTerrain := none
    getProjection := none
    style := { layers := [], sky := none, fog := none }
    sources := [] }

/-- A manager with `bareLiveMap` attached and nothing else set. -/
def bareMapManager : MapStateManager :=
  { map := some bareLiveMap }

/-- A small controls record used by concrete instances. -/
def sampleControls : List (String × ControlConfig) :=
  [("navigation", { enabled := true, position := "top-right" }),
   ("search", { enabled := false, position := "top-left" })]

/-- A concrete configuration used by concrete instances. -/
def sampleConfig : MapConfig :=
  { basemapStyleUrl := "https://tiles.openfreemap.org/styles/liberty"
    basemapId := "liberty"
    controls := sampleControls
    initialCenter := (10, 50)
    initialZoom := 4 }

/-- A manager holding `sampleConfig` with a live map attached. -/
def sampleManager : MapStateManager :=
  { config := some sampleConfig, map := some bareLiveMap }

/-- A stored dataset named `parks.geojson`. -/
def parksRecord : VectorDatasetState :=
  { id := "d0"
    name := "parks.geojson"
    geojson := Json.obj [("type", Json.str "FeatureCollection")]
    visible := true
    layerIds := some ["old1"]
    layerStyles := none }

/-- `parksRecord` after a style refresh against `bareLiveMap`, whose style
has no layers: the capture comes back empty. -/
def parksRecordStyled : VectorDatasetState :=
  { parksRecord with layerStyles := some [] }

/-- A manager that already stores `parksRecord`. -/
def managerWithParks : MapStateManager :=
  { map := some bareLiveMap, datasets := [parksRecord] }

/-- A manager with config, map and one stored dataset. -/
def styledManager : MapStateManager :=
  { config := some sampleConfig, map := some bareLiveMap, datasets := [parksRecord] }

/-- A load-event payload for `parks.geojson` with layer ids `l1`, `l2`. -/
def parksEvent : EventDataset :=
  { id := "d1", filename := "parks.geojson", sourceId := "s1", layerIds := ["l1", "l2"] }

/-- A geojson source whose serialized data is an object. -/
def geoSource : MapSource :=
  { type := "geojson"
    serializedData := Json.obj [("type", Json.str "FeatureCollection"), ("features", Json.arr [])] }

/-- `bareLiveMap` with `geoSource` registered under id `s1`. -/
def sourceLiveMap : LiveMap :=
  { bareLiveMap with sources := [("s1", geoSource)] }

/-- A manager with an empty dataset list and `sourceLiveMap` attached. -/
def emptyLoadManager : MapStateManager :=
  { map := some sourceLiveMap }

/-- A document whose `version`, `config` and `viewport` keys are all
present, but whose `version` is the empty string (a falsy value). -/
def emptyVersionDoc : Json :=
  Json.obj [("version", Json.str ""), ("config", Json.obj []), ("viewport", Json.obj [])]

/-- A parse outcome standing for `JSON.parse` rejecting its input. -/
def badParse : String → Except String Json :=
  fun _ => Except.error "Unexpected token"

theorem getFieldList_setFieldList_ne (fs : List (String × Json)) (key k : String)
    (v : Json) (h : k ≠ key) :
    getFieldList (setFieldList fs key v) k = getFieldList fs k := by
  induction fs with
  | nil => simp [setFieldList, getFieldList, Ne.symm h]
  | cons p rest ih =>
      obtain ⟨pk, pv⟩ := p
      by_cases hpk : pk = key
      · subst hpk
        simp [setFieldList, getFieldList, Ne.symm h]
      · simp [setFieldList, getFieldList, hpk]
        by_cases hpk2 : pk = k <;> simp [hpk2, ih]

theorem getFieldList_setFieldList_self (fs : List (String × Json)) (key : String)
    (v : Json) :
    getFieldList (setFieldList fs key v) key = v := by
  induction fs with
  | nil => simp [setFieldList, getFieldList]
  | cons p rest ih =>
      obtain ⟨pk, pv⟩ := p
      by_cases hpk : pk = key <;> simp [setFieldList, getFieldList, hpk, ih]

theorem getField_setField_ne (j : Json) (key k : String) (v : Json) (h : k ≠ key) :
    (j.setField key v).getField k = j.getField k := by
  cases j <;> simp [Json.setField, Json.getField]
  exact getFieldList_setFieldList_ne _ _ _ _ h

theorem getField_setField_self (fs : List (String × Json)) (key : String) (v : Json) :
    ((Json.obj fs).setField key v).getField key = v := by
  simp [Json.setField, Json.getField, getFieldList_setFieldList_self]

theorem updateDatasetStyles_currentFilePath (m : MapStateManager) :
    m.updateDatasetStyles.currentFilePath = m.currentFilePath := by
  cases h : m.map <;> simp [MapStateManager.updateDatasetStyles, h]

theorem updateDatasetStyles_isDirty (m : MapStateManager) :
    m.updateDatasetStyles.isDirty = m.isDirty := by
  cases h : m.map <;> simp [MapStateManager.updateDatasetStyles, h]

theorem updateDatasetStyles_config (m : MapStateManager) :
    m.updateDatasetStyles.config = m.config := by
  cases h : m.map <;> simp [MapStateManager.updateDatasetStyles, h]

theorem updateDatasetStyles_map (m : MapStateManager) :
    m.updateDatasetStyles.map = m.map := by
  cases h : m.map <;> simp [MapStateManager.updateDatasetStyles, h]

theorem updateDatasetStyles_length (m : MapStateManager) :
    m.updateDatasetStyles.datasets.length = m.datasets.length := by
  cases h : m.map <;> simp [MapStateManager.updateDatasetStyles, h]

theorem getViewportState_updateDatasetStyles (m : MapStateManager) :
    m.updateDatasetStyles.getViewportState = m.getViewportState := by
  have hm := updateDatasetStyles_map m
  unfold MapStateManager.getViewportState
  rw [hm]

theorem updateDatasetStyles_preserves (m : MapStateManager) (i : Nat)
    (d d' : VectorDatasetState)
    (hd : m.datasets[i]? = some d)
    (hd' : m.updateDatasetStyles.datasets[i]? = some d') :
    d'.id = d.id ∧ d'.name = d.name ∧ d'.geojson = d.geojson ∧
    d'.visible = d.visible ∧ d'.layerIds = d.layerIds := by
  cases hm : m.map with
  | none =>
      rw [MapStateManager.updateDatasetStyles, hm] at hd'
      rw [hd] at hd'
      injection hd' with h
      subst h
      exact ⟨rfl, rfl, rfl, rfl, rfl⟩
  | some lm =>
      rw [MapStateManager.updateDatasetStyles, hm] at hd'
      simp only [List.getElem?_map, hd, Option.map_some'] at hd'
      injection hd' with h
      subst h
      cases hli : d.layerIds with
      | none => simp [hli]
      | some ids =>
          by_cases hlen : ids.length > 0 <;> simp [hli, hlen]

/-- C7: `getViewportState` with no live map attached returns exactly
center `[0,20]`, zoom `2`, bearing `0`, pitch `0`, and no padding field.
The function is total, so this fallback never throws. -/
theorem getViewportState_no_map (m : MapStateManager) (h : m.map = none) :
    m.getViewportState =
      { center := (0, 20), zoom := 2, bearing := 0, pitch := 0, padding := none } := by
  rw [MapStateManager.getViewportState, h]

/-- C7 witness: concrete evaluation on the freshly initialized manager. -/
theorem getViewportState_no_map_witness :
    ({} : MapStateManager).map = none ∧
    ({} : MapStateManager).getViewportState =
      { center := (0, 20), zoom := 2, bearing := 0, pitch := 0, padding := none } :=
  ⟨rfl, getViewportState_no_map {} rfl⟩

/-- C9: `serialize()` returns `null` exactly when no configuration is set,
`toJSON()` returns `null` under the same condition, and `reset()` followed
by `serialize()` returns `null`. -/
theorem serialize_null_iff_no_config (m : MapStateManager) (now : String) :
    ((m.serialize now).1 = none ↔ m.config = none) ∧
    ((m.toJSON now).1 = none ↔ m.config = none) ∧
    (m.reset.serialize now).1 = none := by
  refine ⟨?_, ?_, rfl⟩ <;>
    cases h : m.config <;>
      simp [MapStateManager.serialize, MapStateManager.toJSON, h]

/-- C9 witness: concrete evaluation on a manager with a configuration and
on the same manager after `reset`. -/
theorem serialize_null_iff_no_config_witness :
    (((sampleManager.serialize "t").1 = none ↔ sampleManager.config = none) ∧
     ((sampleManager.toJSON "t").1 = none ↔ sampleManager.config = none) ∧
     (sampleManager.reset.serialize "t").1 = none) ∧
    ((({} : MapStateManager).serialize "t").1 = none ↔
      ({} : MapStateManager).config = none) :=
  ⟨serialize_null_iff_no_config sampleManager "t",
   (serialize_null_iff_no_config {} "t").1⟩

/-- C6 counterexample: on a manager whose attached map is missing every
render-state accessor (`getTerrain`, `getProjection` absent, style without
sky or fog), the captured `projection` is not absent or null as the claim
states, but the concrete string `mercator`. -/
theorem getRenderState_projection_cex :
    bareLiveMap.getProjection = none ∧
    bareMapManager.getRenderState.projection ≠ none ∧
    bareMapManager.getRenderState.projection = some "mercator" := by
  refine ⟨rfl, ?_, rfl⟩
  decide

/-- C6 (amended): with no map attached, `getRenderState` returns the empty
record (every field absent); with a map attached, each field degrades
independently — a missing `getTerrain` accessor (or a null terrain) yields
a null `terrain`, a missing `getProjection` accessor yields the default
projection string `mercator`, and a style without `sky` or `fog` yields
null `sky` / `fog`. The capture is total, hence never throws. -/
theorem getRenderState_some_map (m : MapStateManager) (lm : LiveMap)
    (h : m.map = some lm) :
    m.getRenderState =
      { projection := some
          (match lm.getProjection.join with
           | none => "mercator"
           | some spec =>
               match spec.type with
               | some t => t
               | none =>
                   match spec.name with
                   | some n => n
                   | none => "mercator")
        terrain := some (lm.getTerrain.join.map (fun t =>
          { source := t.source, exaggeration := t.exaggeration }))
        sky := some lm.style.sky
        fog := some lm.style.fog } := by
  rw [MapStateManager.getRenderState, h]

theorem getRenderState_defaults (m : MapStateManager) (lm : LiveMap) :
    (m.map = none → m.getRenderState = {}) ∧
    (m.map = some lm → lm.getTerrain.join = none →
      m.getRenderState.terrain = some none) ∧
    (m.map = some lm → lm.getProjection.join = none →
      m.getRenderState.projection = some "mercator") ∧
    (m.map = some lm → lm.style.sky = none →
      m.getRenderState.sky = some none) ∧
    (m.map = some lm → lm.style.fog = none →
      m.getRenderState.fog = some none) := by
  refine ⟨?_, ?_, ?_, ?_, ?_⟩
  · intro h1
    rw [MapStateManager.getRenderState, h1]
  · intro h1 h2
    rw [getRenderState_some_map m lm h1]
    rw [h2]
    rfl
  · intro h1 h2
    rw [getRenderState_some_map m lm h1]
    rw [h2]
  · intro h1 h2
    rw [getRenderState_some_map m lm h1]
    rw [h2]
  · intro h1 h2
    rw [getRenderState_some_map m lm h1]
    rw [h2]

/-- C6 witness: concrete evaluation of each default on the manager whose
map lacks every accessor, and of the no-map case. -/
theorem getRenderState_defaults_witness :
    ({} : MapStateManager).getRenderState = {} ∧
    bareMapManager.getRenderState.terrain = some none ∧
    bareMapManager.getRenderState.projection = some "mercator" ∧
    bareMapManager.getRenderState.sky = some none ∧
    bareMapManager.getRenderState.fog = some none :=
  ⟨(getRenderState_defaults {} bareLiveMap).1 rfl,
   (getRenderState_defaults bareMapManager bareLiveMap).2.1 rfl rfl,
   (getRenderState_defaults bareMapManager bareLiveMap).2.2.1 rfl rfl,
   (getRenderState_defaults bareMapManager bareLiveMap).2.2.2.1 rfl rfl,
   (getRenderState_defaults bareMapManager bareLiveMap).2.2.2.2 rfl rfl⟩

/-- C8: when the stored configuration blob fails to parse as JSON, both
variants of `loadConfig` return `null` exactly as if no blob were stored,
and both variants of `loadOrDefaultConfig` return the default
configuration. All four functions are total, so no error escapes. -/
theorem loadConfig_invalid_json (s : String)
    (p : String → Except String Json) (e : String) (hp : p s = .error e) :
    ConfigV1.loadConfig (some s) p = none ∧
    ConfigV1.loadConfig (some s) p = ConfigV1.loadConfig none p ∧
    ConfigV1.loadOrDefaultConfig (some s) p = encodeMapConfig ConfigV1.getDefaultConfig ∧
    ConfigV2.loadConfig (some s) p = none ∧
    ConfigV2.loadConfig (some s) p = ConfigV2.loadConfig none p ∧
    ConfigV2.loadOrDefaultConfig (some s) p = ConfigV2.encodeMapConfig ConfigV2.getDefaultConfig := by
  by_cases hs : s = "" <;>
    simp [ConfigV1.loadConfig, ConfigV1.loadOrDefaultConfig,
          ConfigV2.loadConfig, ConfigV2.loadOrDefaultConfig, hp, hs]

/-- C8 witness: concrete evaluation with a blob every JSON parser
rejects. -/
theorem loadConfig_invalid_json_witness :
    badParse "not json" = .error "Unexpected token" ∧
    (ConfigV1.loadConfig (some "not json") badParse = none ∧
     ConfigV1.loadConfig (some "not json") badParse = ConfigV1.loadConfig none badParse ∧
     ConfigV1.loadOrDefaultConfig (some "not json") badParse =
       encodeMapConfig ConfigV1.getDefaultConfig ∧
     ConfigV2.loadConfig (some "not json") badParse = none ∧
     ConfigV2.loadConfig (some "not json") badParse = ConfigV2.loadConfig none badParse ∧
     ConfigV2.loadOrDefaultConfig (some "not json") badParse =
       ConfigV2.encodeMapConfig ConfigV2.getDefaultConfig) :=
  ⟨rfl, loadConfig_invalid_json "not json" badParse "Unexpected token" rfl⟩

/-- C2 counterexample: in `emptyVersionDoc` the `version`, `config` and
`viewport` keys are all present (version is the empty string, the other two
are objects) and `datasets` is absent, yet `parseOpenMapFile` does not
succeed — it throws the missing-version error, because the source tests
truthiness rather than presence. -/
theorem parseOpenMapFile_present_falsy_cex :
    emptyVersionDoc.getField "version" = Json.str "" ∧
    emptyVersionDoc.getField "config" = Json.obj [] ∧
    emptyVersionDoc.getField "viewport" = Json.obj [] ∧
    emptyVersionDoc.getField "datasets" = Json.undefined ∧
    parseOpenMapFile emptyVersionDoc = .error "Invalid OpenMap file: missing version" :=
  ⟨rfl, rfl, rfl, rfl, rfl⟩

/-- C2 (amended): on any decoded document object, `parseOpenMapFile` throws
one distinct human-readable error per mandatory field whose value is falsy
(absent fields read as `undefined`, hence falsy; an empty `version` string
also counts as missing); when all of `version`, `config` and `viewport` are
present with truthy values and `datasets` is absent, parsing succeeds and
the returned document's `datasets` field is the empty list. The three error
messages are pairwise distinct. -/
theorem parseOpenMapFile_field_checks (fs : List (String × Json)) :
    (((Json.obj fs).getField "version").truthy = false →
      parseOpenMapFile (Json.obj fs) = .error "Invalid OpenMap file: missing version") ∧
    (((Json.obj fs).getField "version").truthy = true →
     ((Json.obj fs).getField "config").truthy = false →
      parseOpenMapFile (Json.obj fs) = .error "Invalid OpenMap file: missing config") ∧
    (((Json.obj fs).getField "version").truthy = true →
     ((Json.obj fs).getField "config").truthy = true →
     ((Json.obj fs).getField "viewport").truthy = false →
      parseOpenMapFile (Json.obj fs) = .error "Invalid OpenMap file: missing viewport") ∧
    (((Json.obj fs).getField "version").truthy = true →
     ((Json.obj fs).getField "config").truthy = true →
     ((Json.obj fs).getField "viewport").truthy = true →
     (Json.obj fs).getField "datasets" = Json.undefined →
      parseOpenMapFile (Json.obj fs) =
        .ok ((Json.obj fs).setField "datasets" (Json.arr [])) ∧
      (((Json.obj fs).setField "datasets" (Json.arr [])).getField "datasets" =
        Json.arr [])) ∧
    ("Invalid OpenMap file: missing version" ≠ "Invalid OpenMap file: missing config" ∧
     "Invalid OpenMap file: missing version" ≠ "Invalid OpenMap file: missing viewport" ∧
     "Invalid OpenMap file: missing config" ≠ "Invalid OpenMap file: missing viewport") := by
  refine ⟨?_, ?_, ?_, ?_, by decide, by decide, by decide⟩
  · intro h1
    simp [parseOpenMapFile, h1]
  · intro h1 h2
    simp [parseOpenMapFile, h1, h2]
  · intro h1 h2 h3
    simp [parseOpenMapFile, h1, h2, h3]
  · intro h1 h2 h3 h4
    have h5 : ((Json.obj fs).getField "datasets").truthy = false := by
      rw [h4]; rfl
    exact ⟨by simp [parseOpenMapFile, h1, h2, h3, h5],
           getField_setField_self fs "datasets" (Json.arr [])⟩

/-- C2 witness: concrete evaluation of every branch — a document missing
`version`, one missing `config`, one missing `viewport`, and one carrying
all three but no `datasets`. -/
theorem parseOpenMapFile_field_checks_witness :
    parseOpenMapFile (Json.obj [("config", Json.obj []), ("viewport", Json.obj [])]) =
      .error "Invalid OpenMap file: missing version" ∧
    parseOpenMapFile (Json.obj [("version", Json.str "1.0"), ("viewport", Json.obj [])]) =
      .error "Invalid OpenMap file: missing config" ∧
    parseOpenMapFile (Json.obj [("version", Json.str "1.0"), ("config", Json.obj [])]) =
      .error "Invalid OpenMap file: missing viewport" ∧
    (parseOpenMapFile
        (Json.obj [("version", Json.str "1.0"), ("config", Json.obj []),
                   ("viewport", Json.obj [])]) =
      .ok ((Json.obj [("version", Json.str "1.0"), ("config", Json.obj []),
                      ("viewport", Json.obj [])]).setField "datasets" (Json.arr [])) ∧
     ((Json.obj [("version", Json.str "1.0"), ("config", Json.obj []),
                 ("viewport", Json.obj [])]).setField "datasets"
        (Json.arr [])).getField "datasets" = Json.arr []) :=
  ⟨(parseOpenMapFile_field_checks _).1 rfl,
   (parseOpenMapFile_field_checks _).2.1 rfl rfl,
   (parseOpenMapFile_field_checks _).2.2.1 rfl rfl rfl,
   (parseOpenMapFile_field_checks _).2.2.2.1 rfl rfl rfl rfl⟩

/-- C5: a document object whose `version` is any non-empty string other
than the current constant `1.0`, with `config` and `viewport` present and
truthy, is accepted unconditionally: parsing succeeds, the `version` value
is preserved as given, every field other than `datasets` is returned
exactly as it came in, and when `datasets` is itself truthy the document is
returned completely unchanged — no version-specific transformation is
applied. -/
theorem parseOpenMapFile_ignores_version (fs : List (String × Json)) (v : String)
    (hv : (Json.obj fs).getField "version" = Json.str v)
    (hne : v ≠ "")
    (hcur : v ≠ OPENMAP_FILE_VERSION)
    (hcfg : ((Json.obj fs).getField "config").truthy = true)
    (hvp : ((Json.obj fs).getField "viewport").truthy = true) :
    ∃ out, parseOpenMapFile (Json.obj fs) = .ok out ∧
      out.getField "version" = Json.str v ∧
      (∀ k, k ≠ "datasets" → out.getField k = (Json.obj fs).getField k) ∧
      (((Json.obj fs).getField "datasets").truthy = true → out = Json.obj fs) := by
  have hvt : ((Json.obj fs).getField "version").truthy = true := by
    rw [hv]
    simp [Json.truthy, hne]
  by_cases hds : ((Json.obj fs).getField "datasets").truthy = true
  · exact ⟨Json.obj fs, by simp [parseOpenMapFile, hvt, hcfg, hvp, hds],
      hv, fun k _ => rfl, fun _ => rfl⟩
  · refine ⟨(Json.obj fs).setField "datasets" (Json.arr []), ?_, ?_, ?_, ?_⟩
    · simp only [Bool.not_eq_true] at hds
      simp [parseOpenMapFile, hvt, hcfg, hvp, hds]
    · rw [getField_setField_ne _ _ _ _ (by decide : "version" ≠ "datasets")]
      exact hv
    · intro k hk
      exact getField_setField_ne _ _ _ _ hk
    · intro h
      exact absurd h hds

/-- C5 witness: a concrete document carrying version `2.0` is accepted and
returned with its version intact. -/
theorem parseOpenMapFile_ignores_version_witness :
    ("2.0" : String) ≠ OPENMAP_FILE_VERSION ∧
    ∃ out,
      parseOpenMapFile
          (Json.obj [("version", Json.str "2.0"), ("config", Json.obj []),
                     ("viewport", Json.obj [])]) = .ok out ∧
      out.getField "version" = Json.str "2.0" ∧
      (∀ k, k ≠ "datasets" →
        out.getField k =
          (Json.obj [("version", Json.str "2.0"), ("config", Json.obj []),
                     ("viewport", Json.obj [])]).getField k) ∧
      (((Json.obj [("version", Json.str "2.0"), ("config", Json.obj []),
                   ("viewport", Json.obj [])]).getField "datasets").truthy = true →
        out = Json.obj [("version", Json.str "2.0"), ("config", Json.obj []),
                        ("viewport", Json.obj [])]) :=
  ⟨by decide,
   parseOpenMapFile_ignores_version _ "2.0" rfl (by decide) (by decide) rfl rfl⟩

/-- C3: when a load notification carries a dataset whose filename matches a
record already in the list (as after a prior notification with the same
name), the handler rewrites that record's layer-id list in place: the list
keeps its length, no record is appended, and the dirty flag is
untouched. -/
theorem handleDatasetLoad_existing_updates (m : MapStateManager)
    (ds : EventDataset) (lm : LiveMap) (i : Nat) (d : VectorDatasetState)
    (hmap : m.map = some lm)
    (hidx : m.datasets.findIdx? (fun r => r.name == ds.filename) = some i)
    (hd : m.datasets[i]? = some d) :
    (handleDatasetLoad m { dataset := some ds }).datasets =
      m.datasets.set i ({ d with layerIds := some ds.layerIds }) ∧
    (handleDatasetLoad m { dataset := some ds }).datasets.length =
      m.datasets.length ∧
    (handleDatasetLoad m { dataset := some ds }).isDirty = m.isDirty := by
  rw [handleDatasetLoad]
  rw [hmap]
  simp [hidx, hd]

/-- C3 witness: a second notification for `parks.geojson` against a list
that already stores it rewrites the one record and keeps the list at length
one. -/
theorem handleDatasetLoad_existing_updates_witness :
    (handleDatasetLoad managerWithParks { dataset := some parksEvent }).datasets =
      managerWithParks.datasets.set 0
        ({ parksRecord with layerIds := some parksEvent.layerIds }) ∧
    (handleDatasetLoad managerWithParks { dataset := some parksEvent }).datasets.length =
      managerWithParks.datasets.length ∧
    (handleDatasetLoad managerWithParks { dataset := some parksEvent }).isDirty =
      managerWithParks.isDirty :=
  handleDatasetLoad_existing_updates managerWithParks parksEvent bareLiveMap 0
    parksRecord rfl rfl rfl

/-- C4: a load notification for a name matching no stored record, whose
source is a geojson source materializing an object payload, appends exactly
one record carrying the event's name and layer ids with `visible := true`,
and sets the dirty flag. -/
theorem handleDatasetLoad_appends_new (m : MapStateManager)
    (ds : EventDataset) (lm : LiveMap) (src : MapSource)
    (hmap : m.map = some lm)
    (hnone : m.datasets.findIdx? (fun r => r.name == ds.filename) = none)
    (hsrc : lm.getSource ds.sourceId = some src)
    (htype : src.type = "geojson")
    (htruthy : src.serializedData.truthy = true)
    (hobj : jsObjectLike src.serializedData = true) :
    (handleDatasetLoad m { dataset := some ds }).datasets =
      m.datasets ++
        [{ id := ds.id
           name := ds.filename
           geojson := src.serializedData
           visible := true
           layerIds := some ds.layerIds
           layerStyles := none }] ∧
    (handleDatasetLoad m { dataset := some ds }).datasets.length =
      m.datasets.length + 1 ∧
    (handleDatasetLoad m { dataset := some ds }).isDirty = true := by
  rw [handleDatasetLoad]
  rw [hmap]
  simp [hnone, hsrc, htype, htruthy, hobj]

/-- C4 witness: the spec's example — a notification for the new name
`parks.geojson` with layer ids `l1`, `l2` against an empty dataset list
yields a one-element list and a dirty manager. -/
theorem handleDatasetLoad_appends_new_witness :
    (handleDatasetLoad emptyLoadManager { dataset := some parksEvent }).datasets =
      emptyLoadManager.datasets ++
        [{ id := parksEvent.id
           name := parksEvent.filename
           geojson := geoSource.serializedData
           visible := true
           layerIds := some parksEvent.layerIds
           layerStyles := none }] ∧
    (handleDatasetLoad emptyLoadManager { dataset := some parksEvent }).datasets.length =
      emptyLoadManager.datasets.length + 1 ∧
    (handleDatasetLoad emptyLoadManager { dataset := some parksEvent }).isDirty = true :=
  handleDatasetLoad_appends_new emptyLoadManager parksEvent sourceLiveMap geoSource
    rfl rfl rfl rfl rfl rfl

/-- C10: `serialize()` leaves `currentFilePath`, `isDirty`, `config` (and
the attached map) unchanged; the dataset list keeps its length and every
record keeps its `id`, `name`, `geojson`, `visible` and `layerIds` — the
only per-record field `serialize` may touch is `layerStyles`, via the style
refresh. Stated for the record at any index `i` of the list. -/
theorem serialize_frame (m : MapStateManager) (now : String) (i : Nat)
    (d d' : VectorDatasetState)
    (hd : m.datasets[i]? = some d)
    (hd' : (m.serialize now).2.datasets[i]? = some d') :
    (m.serialize now).2.currentFilePath = m.currentFilePath ∧
    (m.serialize now).2.isDirty = m.isDirty ∧
    (m.serialize now).2.config = m.config ∧
    (m.serialize now).2.map = m.map ∧
    (m.serialize now).2.datasets.length = m.datasets.length ∧
    d'.id = d.id ∧ d'.name = d.name ∧ d'.geojson = d.geojson ∧
    d'.visible = d.visible ∧ d'.layerIds = d.layerIds := by
  cases hc : m.config with
  | none =>
      have h2 : (m.serialize now).2 = m := by
        rw [MapStateManager.serialize, hc]
      rw [h2] at hd'
      rw [hd] at hd'
      injection hd' with h
      subst h
      rw [h2]
      exact ⟨rfl, rfl, hc, rfl, rfl, rfl, rfl, rfl, rfl, rfl⟩
  | some cfg =>
      have h2 : (m.serialize now).2 = m.updateDatasetStyles := by
        rw [MapStateManager.serialize, hc]
      rw [h2] at hd'
      have hp := updateDatasetStyles_preserves m i d d' hd hd'
      rw [h2]
      exact ⟨updateDatasetStyles_currentFilePath m, updateDatasetStyles_isDirty m,
             (updateDatasetStyles_config m).trans hc, updateDatasetStyles_map m,
             updateDatasetStyles_length m,
             hp.1, hp.2.1, hp.2.2.1, hp.2.2.2.1, hp.2.2.2.2⟩

/-- C10 witness: concrete evaluation on a manager with a configuration, a
live map and one stored dataset; the serialized manager keeps every field
and only the record's `layerStyles` is refreshed (to an empty capture,
since the attached style has no layers). -/
theorem serialize_frame_witness :
    styledManager.datasets[0]? = some parksRecord ∧
    (styledManager.serialize "t").2.datasets[0]? = some parksRecordStyled ∧
    ((styledManager.serialize "t").2.currentFilePath = styledManager.currentFilePath ∧
     (styledManager.serialize "t").2.isDirty = styledManager.isDirty ∧
     (styledManager.serialize "t").2.config = styledManager.config ∧
     (styledManager.serialize "t").2.map = styledManager.map ∧
     (styledManager.serialize "t").2.datasets.length = styledManager.datasets.length ∧
     parksRecordStyled.id = parksRecord.id ∧
     parksRecordStyled.name = parksRecord.name ∧
     parksRecordStyled.geojson = parksRecord.geojson ∧
     parksRecordStyled.visible = parksRecord.visible ∧
     parksRecordStyled.layerIds = parksRecord.layerIds) :=
  ⟨rfl, rfl, serialize_frame styledManager "t" 0 parksRecord parksRecordStyled rfl rfl⟩

/-- C1: with any configuration set (and any datasets, any attached map),
`serialize()` / `toJSON()` followed by `parseOpenMapFile` and
`fileStateToConfig` reproduces the basemap id, the full controls record
(hence each control's enablement), and an `initialCenter` / `initialZoom`
equal to the viewport captured at serialization time. -/
theorem serialize_parse_roundTrip (m : MapStateManager) (now : String)
    (cfg : MapConfig) (hcfg : m.config = some cfg) :
    ∃ j, (m.toJSON now).1 = some j ∧
      ∃ doc, parseOpenMapFile j = .ok doc ∧
        (fileStateToConfig doc).getField "basemapId" = Json.str cfg.basemapId ∧
        (fileStateToConfig doc).getField "controls" = encodeControls cfg.controls ∧
        (fileStateToConfig doc).getField "initialCenter" =
          encodeCenter m.getViewportState.center ∧
        (fileStateToConfig doc).getField "initialZoom" =
          Json.num m.getViewportState.zoom := by
  obtain ⟨path, dirty, c, mp, dsets⟩ := m
  have hc : c = some cfg := hcfg
  subst hc
  rw [← getViewportState_updateDatasetStyles ⟨path, dirty, some cfg, mp, dsets⟩]
  exact ⟨_, rfl, _, rfl, rfl, rfl, rfl, rfl⟩

/-- C1 witness: concrete evaluation on a manager holding `sampleConfig`
with a live map attached. -/
theorem serialize_parse_roundTrip_witness :
    sampleManager.config = some sampleConfig ∧
    ∃ j, (sampleManager.toJSON "2024-01-01T00:00:00Z").1 = some j ∧
      ∃ doc, parseOpenMapFile j = .ok doc ∧
        (fileStateToConfig doc).getField "basemapId" = Json.str sampleConfig.basemapId ∧
        (fileStateToConfig doc).getField "controls" = encodeControls sampleConfig.controls ∧
        (fileStateToConfig doc).getField "initialCenter" =
          encodeCenter sampleManager.getViewportState.center ∧
        (fileStateToConfig doc).getField "initialZoom" =
          Json.num sampleManager.getViewportState.zoom :=
  ⟨rfl, serialize_parse_roundTrip sampleManager "2024-01-01T00:00:00Z" sampleConfig rfl⟩

end OpenMapStudio
